import Mathlib

set_option maxHeartbeats 1000000

/-!
Verification development for the idalib MCP session tools.

The tool layer (api_idalib.py) and the server entry point (idalib_server.py)
are embedded directly from the source.  The session manager itself
(idalib_session_manager.py) is not part of the source tree; where a claim
depends on it, it is modelled from the specification (marked
"Modelled from the spec:" below).
-/

/-- A Python value as produced by the tool layer: strings, booleans,
naturals, None, dictionaries with string keys, and lists. -/
inductive JVal where
  | str : String → JVal
  | bool : Bool → JVal
  | nat : Nat → JVal
  | null : JVal
  | dict : List (String × JVal) → JVal
  | list : List JVal → JVal

/-- Association-list lookup over the entries of a Python dictionary. -/
def lookupKey (kvs : List (String × JVal)) (k : String) : Option JVal :=
  match kvs with
  | [] => none
  | (k', v) :: rest => if k' == k then some v else lookupKey rest k

/-- Dictionary key lookup; non-dictionaries have no keys. -/
def JVal.lookup : JVal → String → Option JVal
  | .dict kvs, k => lookupKey kvs k
  | _, _ => none

/-- Whether a Python value is a dictionary. -/
def JVal.isDict : JVal → Bool
  | .dict _ => true
  | _ => false

/-- The Python exception classes that can cross the tool boundary in
api_idalib.py: FileNotFoundError (the NotFoundError of the spec taxonomy),
ValueError (unknown session id from switch_session), RuntimeError
(EngineError), and any other Exception.  Each carries its message, the
result of str(e). -/
inductive PyExc where
  | fileNotFound : String → PyExc
  | valueError : String → PyExc
  | runtimeError : String → PyExc
  | other : String → PyExc

/-- The message of an exception, str(e) in the source. -/
def PyExc.msg : PyExc → String
  | .fileNotFound m => m
  | .valueError m => m
  | .runtimeError m => m
  | .other m => m

/-- The final component of a filesystem path: Path(p).name in the source. -/
def pathName (p : String) : String :=
  match (p.splitOn "/").getLast? with
  | some s => s
  | none => p

/-- Modelled from the spec: the Session entity held by the session manager
(idalib_session_manager.py is not under src/).  The descriptor fields are
those of spec section 6; timestamps are ISO-8601 strings. -/
structure Session where
  session_id : String
  input_path : String
  filename : String
  created_at : String
  last_accessed : String
  is_current : Bool
  is_analyzing : Bool
  metadata : List (String × JVal)

/-- The descriptor serialization session.to_dict() used by the tool layer,
with the fields the spec's section 6 lists for a session descriptor. -/
def Session.to_dict (s : Session) : JVal :=
  .dict [("session_id", .str s.session_id),
         ("input_path", .str s.input_path),
         ("filename", .str s.filename),
         ("created_at", .str s.created_at),
         ("last_accessed", .str s.last_accessed),
         ("is_current", .bool s.is_current),
         ("is_analyzing", .bool s.is_analyzing),
         ("metadata", .dict s.metadata)]

/-- The mode-gating error message returned by every tool when IDALIB_MODE is
false (two adjacent Python string literals, concatenated). -/
def MODE_ERROR_MSG : String :=
  "This tool is only available in idalib mode. Start the server with: idalib-mcp --host 127.0.0.1 --port 8745"

/-- The structured error dictionary returned by every tool outside idalib
mode. -/
def modeErrorDict : JVal := .dict [("error", .str MODE_ERROR_MSG)]

/-- The observable behaviour of the session manager during one idalib_open
call: the outcome of manager.open_binary applied to the call's arguments,
and of the subsequent manager.get_session applied to the returned id.  A
failure of get_session_manager itself is folded into the first result. -/
structure OpenBehavior where
  openResult : String → Bool → Option String → Except PyExc String
  getSessionResult : String → Except PyExc (Option Session)

/-- The try-block body of idalib_open (api_idalib.py lines 64-80). -/
def idalib_open_body (input_path : String) (run_auto_analysis : Bool)
    (session_id : Option String) (b : OpenBehavior) : Except PyExc JVal := do
  let sid ← b.openResult input_path run_auto_analysis session_id
  match ← b.getSessionResult sid with
  | none =>
      pure (.dict [("error", .str ("Failed to retrieve session after opening: " ++ sid))])
  | some s =>
      pure (.dict [("success", .bool true),
                   ("session", s.to_dict),
                   ("message", .str ("Binary opened successfully: " ++ pathName s.input_path))])

/-- idalib_open (api_idalib.py lines 22-86): mode gate, then the try body,
with except clauses for FileNotFoundError, RuntimeError and Exception. -/
def idalib_open (idalibMode : Bool) (input_path : String) (run_auto_analysis : Bool)
    (session_id : Option String) (b : OpenBehavior) : JVal :=
  if idalibMode = false then modeErrorDict
  else
    match idalib_open_body input_path run_auto_analysis session_id b with
    | .ok v => v
    | .error (.fileNotFound m) => .dict [("error", .str m)]
    | .error (.runtimeError m) => .dict [("error", .str ("Failed to open binary: " ++ m))]
    | .error e => .dict [("error", .str ("Unexpected error: " ++ e.msg))]

/-- The observable behaviour of the session manager during one idalib_close
call: the outcome of manager.close_session applied to the session id. -/
structure CloseBehavior where
  closeResult : String → Except PyExc Bool

/-- The try-block body of idalib_close (api_idalib.py lines 120-132). -/
def idalib_close_body (session_id : String) (b : CloseBehavior) : Except PyExc JVal := do
  if (← b.closeResult session_id) then
    pure (.dict [("success", .bool true),
                 ("message", .str ("Session closed: " ++ session_id))])
  else
    pure (.dict [("success", .bool false),
                 ("error", .str ("Session not found: " ++ session_id))])

/-- idalib_close (api_idalib.py lines 89-134): mode gate, then the try body,
with a single except clause for Exception. -/
def idalib_close (idalibMode : Bool) (session_id : String) (b : CloseBehavior) : JVal :=
  if idalibMode = false then modeErrorDict
  else
    match idalib_close_body session_id b with
    | .ok v => v
    | .error e => .dict [("error", .str ("Failed to close session: " ++ e.msg))]

/-- The observable behaviour of the session manager during one idalib_switch
call: the outcome of manager.switch_session applied to the session id, and
of the subsequent manager.get_current_session. -/
structure SwitchBehavior where
  switchResult : String → Except PyExc Bool
  currentResult : Except PyExc (Option Session)

/-- The try-block body of idalib_switch (api_idalib.py lines 175-187).  When
switch_session returns a falsy value without raising, no return statement
executes and the Python function falls off the end of the try block, so the
call evaluates to None - embedded here as JVal.null. -/
def idalib_switch_body (session_id : String) (b : SwitchBehavior) : Except PyExc JVal := do
  if (← b.switchResult session_id) then
    match ← b.currentResult with
    | none => pure (.dict [("error", .str "Failed to retrieve current session after switching")])
    | some s =>
        pure (.dict [("success", .bool true),
                     ("session", s.to_dict),
                     ("message", .str ("Switched to session: " ++ session_id ++ " ("
                        ++ pathName s.input_path ++ ")"))])
  else
    pure JVal.null

/-- idalib_switch (api_idalib.py lines 137-193): mode gate, then the try
body, with except clauses for ValueError, RuntimeError and Exception. -/
def idalib_switch (idalibMode : Bool) (session_id : String) (b : SwitchBehavior) : JVal :=
  if idalibMode = false then modeErrorDict
  else
    match idalib_switch_body session_id b with
    | .ok v => v
    | .error (.valueError m) => .dict [("error", .str m)]
    | .error (.runtimeError m) => .dict [("error", .str ("Failed to switch session: " ++ m))]
    | .error e => .dict [("error", .str ("Unexpected error: " ++ e.msg))]

/-- The observable behaviour of the session manager during one idalib_list
call: the outcome of manager.list_sessions (a list of descriptor
dictionaries) and of manager.get_current_session. -/
structure ListBehavior where
  listResult : Except PyExc (List JVal)
  currentResult : Except PyExc (Option Session)

/-- The try-block body of idalib_list (api_idalib.py lines 243-252). -/
def idalib_list_body (b : ListBehavior) : Except PyExc JVal := do
  let sessions ← b.listResult
  let current_session ← b.currentResult
  pure (.dict [("sessions", .list sessions),
               ("count", .nat sessions.length),
               ("current_session_id",
                 match current_session with
                 | some s => .str s.session_id
                 | none => .null)])

/-- idalib_list (api_idalib.py lines 196-254): mode gate, then the try body,
with a single except clause for Exception. -/
def idalib_list (idalibMode : Bool) (b : ListBehavior) : JVal :=
  if idalibMode = false then modeErrorDict
  else
    match idalib_list_body b with
    | .ok v => v
    | .error e => .dict [("error", .str ("Failed to list sessions: " ++ e.msg))]

/-- The observable behaviour of the session manager during one idalib_current
call: the outcome of manager.get_current_session. -/
structure CurrentBehavior where
  currentResult : Except PyExc (Option Session)

/-- The try-block body of idalib_current (api_idalib.py lines 293-302). -/
def idalib_current_body (b : CurrentBehavior) : Except PyExc JVal := do
  match ← b.currentResult with
  | none => pure (.dict [("error", .str "No active session. Use idalib_open() to open a binary first.")])
  | some s => pure s.to_dict

/-- idalib_current (api_idalib.py lines 257-304): mode gate, then the try
body, with a single except clause for Exception. -/
def idalib_current (idalibMode : Bool) (b : CurrentBehavior) : JVal :=
  if idalibMode = false then modeErrorDict
  else
    match idalib_current_body b with
    | .ok v => v
    | .error e => .dict [("error", .str ("Failed to get current session: " ++ e.msg))]

/-- Modelled from the spec: a registered session as the Session Manager
stores it (idalib_session_manager.py is not under src/): immutable
identity, the dedup key input_path, and the engine handle, present only
while this session's database is loaded in the engine. -/
structure MSession where
  session_id : String
  input_path : String
  engine_handle : Option Nat
  deriving DecidableEq, Repr

/-- Modelled from the spec: the Session Manager's mutable state - the
session registry (in creation order) and the current-session pointer. -/
structure ManagerState where
  registry : List MSession
  current : Option String
  deriving DecidableEq, Repr

/-- Modelled from the spec: the Engine Adapter interface (spec section 4.3).
load(path) yields a handle or fails with EngineError (carrying the error
message); unload(handle) persists and releases the slot or fails with
EngineError. -/
structure EngineBehavior where
  loadResult : String → Except String Nat
  unloadResult : Nat → Except String Unit

/-- Modelled from the spec: the error taxonomy of spec section 7 as raised
by Session Manager operations (NotFoundError, ConflictError, EngineError). -/
inductive MgrError where
  | notFound : String → MgrError
  | conflict : String → MgrError
  | engine : String → MgrError
  deriving DecidableEq, Repr

/-- Clears the engine handle of the session named cid, leaving every other
session unchanged (the per-entry step of deactivation). -/
def clearHandleIf (cid : String) (t : MSession) : MSession :=
  if t.session_id == cid then { t with engine_handle := none } else t

/-- Installs engine handle h on the session named sid, leaving every other
session unchanged (the per-entry step of activation). -/
def setHandleIf (sid : String) (h : Nat) (t : MSession) : MSession :=
  if t.session_id == sid then { t with engine_handle := some h } else t

/-- Modelled from the spec: deactivate the current session, if any - save
and unload its database through the Engine Adapter.  An EngineError from
unload aborts the registry mutation: the state is returned unchanged
(spec section 7).  On success the handle is cleared and the current
pointer becomes null. -/
def deactivate (eng : EngineBehavior) (st : ManagerState) :
    Except MgrError Unit × ManagerState :=
  match st.current with
  | none => (Except.ok (), st)
  | some cid =>
    match st.registry.find? (fun s => s.session_id == cid) with
    | none => (Except.ok (), { st with current := none })
    | some s =>
      match s.engine_handle with
      | none => (Except.ok (), { st with current := none })
      | some h =>
        match eng.unloadResult h with
        | .error m => (Except.error (MgrError.engine m), st)
        | .ok _ =>
          (Except.ok (),
           { registry := st.registry.map (clearHandleIf cid), current := none })

/-- Modelled from the spec: open_binary (spec section 4.1).  pathExists
stands for the filesystem existence/readability check; freshId is the
generated id used when the caller supplies none (the spec requires it to be
collision-checked against the registry before acceptance).  Constraint
checks first (NotFoundError, ConflictError), then the dedup policy, then
deactivation of the current holder, engine load, and registration.  The
result is returned together with the post-state. -/
def open_binary (eng : EngineBehavior) (pathExists : Bool) (freshId : String)
    (st : ManagerState) (path : String) (sidOpt : Option String) :
    Except MgrError String × ManagerState :=
  if pathExists = false then (Except.error (MgrError.notFound path), st)
  else if (match sidOpt with
           | some sid => st.registry.any (fun s => s.session_id == sid)
           | none => false) then
    (Except.error (MgrError.conflict (sidOpt.getD "")), st)
  else
    match st.registry.find? (fun s => s.input_path == path) with
    | some s => (Except.ok s.session_id, st)
    | none =>
      match deactivate eng st with
      | (.error e, st') => (Except.error e, st')
      | (.ok _, st') =>
        match eng.loadResult path with
        | .error m => (Except.error (MgrError.engine m), st')
        | .ok h =>
          (Except.ok (sidOpt.getD freshId),
           { registry := st'.registry ++ [⟨sidOpt.getD freshId, path, some h⟩],
             current := some (sidOpt.getD freshId) })

/-- Modelled from the spec: close_session (spec section 4.1).  Unknown id:
returns false with no change.  Current session: deactivated first (save and
unload), and an EngineError during that unload aborts the removal, so the
session stays registered and current.  Dormant session: pure registry
removal with no engine interaction. -/
def close_session (eng : EngineBehavior) (st : ManagerState) (sid : String) :
    Except MgrError Bool × ManagerState :=
  if st.registry.any (fun s => s.session_id == sid) = false then (Except.ok false, st)
  else if st.current == some sid then
    match deactivate eng st with
    | (.error e, st') => (Except.error e, st')
    | (.ok _, st') =>
      (Except.ok true,
       { st' with registry := st'.registry.filter (fun s => s.session_id != sid) })
  else
    (Except.ok true,
     { st with registry := st.registry.filter (fun s => s.session_id != sid) })

/-- Modelled from the spec: switch_session (spec section 4.1).  Unknown id
fails with NotFoundError; an already-current id is a no-op success;
otherwise the current session is deactivated (save and unload, aborting on
EngineError) and the target's database is loaded and its handle installed. -/
def switch_session (eng : EngineBehavior) (st : ManagerState) (sid : String) :
    Except MgrError Bool × ManagerState :=
  match st.registry.find? (fun s => s.session_id == sid) with
  | none => (Except.error (MgrError.notFound sid), st)
  | some target =>
    if st.current == some sid then (Except.ok true, st)
    else
      match deactivate eng st with
      | (.error e, st') => (Except.error e, st')
      | (.ok _, st') =>
        match eng.loadResult target.input_path with
        | .error m => (Except.error (MgrError.engine m), st')
        | .ok h =>
          (Except.ok true,
           { registry := st'.registry.map (setHandleIf sid h),
             current := some sid })

/-- The removal step of close_all_sessions for one registered session: the
entry is removed and, if it was current, the pointer is cleared.  The
unload attempt's outcome is tolerated (logged, not propagated), so the
removal happens regardless of engine failures. -/
def closeAllStep (acc : ManagerState) (s : MSession) : ManagerState :=
  { registry := acc.registry.filter (fun t => t.session_id != s.session_id),
    current := if acc.current == some s.session_id then none else acc.current }

/-- Modelled from the spec: close_all_sessions (spec section 4.1) iterates
the full registry, deactivating and removing every session, tolerating and
logging (not propagating) individual engine failures so that shutdown
always proceeds to completion. -/
def close_all_sessions (eng : EngineBehavior) (st : ManagerState) : ManagerState :=
  st.registry.foldl closeAllStep st

/-- Whether the current pointer, when set, names a registered session that
holds the live engine handle. -/
def currentNamesHolder (st : ManagerState) : Bool :=
  match st.current with
  | none => true
  | some cid =>
    st.registry.any (fun s => s.session_id == cid && s.engine_handle.isSome)

/-- The single-slot exclusivity invariant (spec sections 3 and 8): at most
one registered session holds a live engine handle; every holder is the
session the current pointer names (so a null pointer means no handle is
loaded anywhere); and a non-null pointer names a registered holder. -/
def SingleSlot (st : ManagerState) : Prop :=
  st.registry.countP (fun s => s.engine_handle.isSome) ≤ 1 ∧
  (∀ s ∈ st.registry, s.engine_handle.isSome = true → st.current = some s.session_id) ∧
  currentNamesHolder st = true

/-- The Session Manager invariant: unique session identities within the
registry (spec section 3) together with single-slot exclusivity. -/
def MgrInv (st : ManagerState) : Prop :=
  (st.registry.map (fun s => s.session_id)).Nodup ∧ SingleSlot st

instance (st : ManagerState) : Decidable (SingleSlot st) := by
  unfold SingleSlot; exact inferInstance

instance (st : ManagerState) : Decidable (MgrInv st) := by
  unfold MgrInv; exact inferInstance

/-- One shutdown-relevant event of the server process: a log line, the
completed close of one registered session inside close_all_sessions, or the
process-exit step sys.exit(code). -/
inductive ShutdownEvent where
  | logged : String → ShutdownEvent
  | sessionClosed : String → ShutdownEvent
  | exited : Nat → ShutdownEvent
  deriving DecidableEq, Repr

/-- Whether an event is the process-exit step. -/
def ShutdownEvent.isExit : ShutdownEvent → Bool
  | .exited _ => true
  | _ => false

/-- The event trace of cleanup_and_exit (idalib_server.py lines 72-77): two
log lines, then close_all_sessions completing for every registered session,
a final log line, and only then sys.exit(0). -/
def cleanupTrace (st : ManagerState) : List ShutdownEvent :=
  [ShutdownEvent.logged "Shutting down...",
   ShutdownEvent.logged "Closing all IDA sessions..."]
  ++ st.registry.map (fun s => ShutdownEvent.sessionClosed s.session_id)
  ++ [ShutdownEvent.logged "All sessions closed."]
  ++ [ShutdownEvent.exited 0]

/-- The signal handler cleanup_and_exit (idalib_server.py lines 72-77): it
ignores its signum and frame arguments, runs close_all_sessions on the
manager state, and its observable behaviour is the shutdown trace together
with the manager state after close_all_sessions. -/
def cleanup_and_exit (eng : EngineBehavior) (st : ManagerState) (signum : Nat) :
    List ShutdownEvent × ManagerState :=
  (cleanupTrace st, close_all_sessions eng st)

/-- SIGINT's number on the server's platform. -/
def SIGINT : Nat := 2

/-- SIGTERM's number on the server's platform. -/
def SIGTERM : Nat := 15

/-- The signal-handler table installed by main (idalib_server.py lines
79-80): cleanup_and_exit is registered for SIGINT and SIGTERM and no
handler is installed for any other signal. -/
def signalHandler (signum : Nat) :
    Option (EngineBehavior → ManagerState → Nat → List ShutdownEvent × ManagerState) :=
  if signum == SIGINT || signum == SIGTERM then some cleanup_and_exit else none

lemma clearHandleIf_session_id (cid : String) (t : MSession) :
    (clearHandleIf cid t).session_id = t.session_id := by
  unfold clearHandleIf; split <;> rfl

lemma setHandleIf_session_id (sid : String) (h : Nat) (t : MSession) :
    (setHandleIf sid h t).session_id = t.session_id := by
  unfold setHandleIf; split <;> rfl

lemma map_sid_clearHandleIf (cid : String) (l : List MSession) :
    (l.map (clearHandleIf cid)).map (fun s => s.session_id)
      = l.map (fun s => s.session_id) := by
  induction l with
  | nil => rfl
  | cons a l ih => simp [clearHandleIf_session_id, ih]

lemma map_sid_setHandleIf (sid : String) (h : Nat) (l : List MSession) :
    (l.map (setHandleIf sid h)).map (fun s => s.session_id)
      = l.map (fun s => s.session_id) := by
  induction l with
  | nil => rfl
  | cons a l ih => simp [setHandleIf_session_id, ih]

lemma currentNamesHolder_of_none {st : ManagerState} (h : st.current = none) :
    currentNamesHolder st = true := by
  simp [currentNamesHolder, h]

lemma currentNamesHolder_some_iff {st : ManagerState} {cid : String}
    (h : st.current = some cid) :
    currentNamesHolder st = true ↔
      ∃ s ∈ st.registry, s.session_id = cid ∧ s.engine_handle.isSome = true := by
  simp [currentNamesHolder, h, List.any_eq_true, Bool.and_eq_true]

lemma mgrInv_of_free (st : ManagerState)
    (hnd : (st.registry.map (fun s => s.session_id)).Nodup)
    (hcur : st.current = none)
    (hfree : ∀ s ∈ st.registry, s.engine_handle = none) :
    MgrInv st := by
  refine ⟨hnd, ?_, ?_, currentNamesHolder_of_none hcur⟩
  · have h0 : st.registry.countP (fun s => s.engine_handle.isSome) = 0 :=
      List.countP_eq_zero.mpr (fun a ha => by simp [hfree a ha])
    omega
  · intro s hs hsome
    rw [hfree s hs] at hsome
    simp at hsome

lemma deactivate_cases (eng : EngineBehavior) (st : ManagerState) (hinv : MgrInv st) :
    (∃ e, deactivate eng st = (Except.error e, st)) ∨
    (∃ st', deactivate eng st = (Except.ok (), st') ∧
       st'.registry.map (fun s => s.session_id) = st.registry.map (fun s => s.session_id) ∧
       st'.current = none ∧
       ∀ s ∈ st'.registry, s.engine_handle = none) := by
  have hnd := hinv.1
  have hhold := hinv.2.2.1
  have hnames := hinv.2.2.2
  cases hc : st.current with
  | none =>
    right
    refine ⟨st, by simp [deactivate, hc], rfl, hc, ?_⟩
    intro s hs
    cases he : s.engine_handle with
    | none => rfl
    | some x =>
      have := hhold s hs (by simp [he])
      rw [hc] at this
      exact absurd this (by simp)
  | some cid =>
    cases hf : st.registry.find? (fun s => s.session_id == cid) with
    | none =>
      exfalso
      obtain ⟨s0, hs0mem, hs0id, hs0h⟩ := (currentNamesHolder_some_iff hc).mp hnames
      have := List.find?_eq_none.mp hf s0 hs0mem
      simp [hs0id] at this
    | some s =>
      have hsid : s.session_id = cid := by simpa using List.find?_some hf
      have hsmem : s ∈ st.registry := List.mem_of_find?_eq_some hf
      cases hh : s.engine_handle with
      | none =>
        exfalso
        obtain ⟨s0, hs0mem, hs0id, hs0h⟩ := (currentNamesHolder_some_iff hc).mp hnames
        have hse : s0 = s :=
          List.inj_on_of_nodup_map hnd hs0mem hsmem (by rw [hs0id, hsid])
        rw [hse, hh] at hs0h
        simp at hs0h
      | some hd =>
        cases hu : eng.unloadResult hd with
        | error m =>
          left
          exact ⟨MgrError.engine m, by simp [deactivate, hc, hf, hh, hu]⟩
        | ok u =>
          right
          refine ⟨{ registry := st.registry.map (clearHandleIf cid), current := none },
                  by simp [deactivate, hc, hf, hh, hu], map_sid_clearHandleIf cid st.registry,
                  rfl, ?_⟩
          intro t ht
          obtain ⟨t0, ht0mem, ht0eq⟩ := List.mem_map.mp ht
          by_cases hid : t0.session_id = cid
          · rw [← ht0eq]; simp [clearHandleIf, hid]
          · have hnone : t0.engine_handle = none := by
              cases he : t0.engine_handle with
              | none => rfl
              | some x =>
                exfalso
                have := hhold t0 ht0mem (by simp [he])
                rw [hc] at this
                exact hid (Option.some.inj this).symm
            rw [← ht0eq]
            simp [clearHandleIf, hid, hnone]

lemma countP_isSome_setHandle (sid : String) (h : Nat) (l : List MSession)
    (hfree : ∀ s ∈ l, s.engine_handle = none) :
    (l.map (setHandleIf sid h)).countP (fun s => s.engine_handle.isSome)
      = l.countP (fun s => s.session_id == sid) := by
  induction l with
  | nil => rfl
  | cons a l ih =>
    have ha := hfree a (by simp)
    have ih' := ih (fun s hs => hfree s (by simp [hs]))
    by_cases hid : (a.session_id == sid) = true
    · simp [List.countP_cons, ih', setHandleIf, hid]
    · simp [List.countP_cons, ih', setHandleIf, hid, ha]

lemma countP_id_le_one (sid : String) (l : List MSession)
    (hnd : (l.map (fun s => s.session_id)).Nodup) :
    l.countP (fun s => s.session_id == sid) ≤ 1 := by
  induction l with
  | nil => simp
  | cons a l ih =>
    rw [List.map_cons, List.nodup_cons] at hnd
    rw [List.countP_cons]
    by_cases hid : (a.session_id == sid) = true
    · have haeq : a.session_id = sid := by simpa using hid
      have h0 : l.countP (fun s => s.session_id == sid) = 0 := by
        apply List.countP_eq_zero.mpr
        intro s hs hps
        have hseq : s.session_id = sid := by simpa using hps
        exact hnd.1 (by rw [haeq, ← hseq]; exact List.mem_map.mpr ⟨s, hs, rfl⟩)
      simp [h0, hid]
    · simpa [hid] using ih hnd.2

lemma nodup_filter_sid (sid : String) (l : List MSession)
    (hnd : (l.map (fun s => s.session_id)).Nodup) :
    ((l.filter (fun s => s.session_id != sid)).map (fun s => s.session_id)).Nodup := by
  exact hnd.sublist ((List.filter_sublist l).map (fun s => s.session_id))

lemma open_binary_pres (eng : EngineBehavior) (pathExists : Bool)
    (freshId path : String) (sidOpt : Option String) (st : ManagerState)
    (hinv : MgrInv st)
    (hfresh : st.registry.all (fun s => s.session_id != freshId) = true) :
    MgrInv (open_binary eng pathExists freshId st path sidOpt).2 := by
  unfold open_binary
  split
  · exact hinv
  · split
    next hconf =>
      exact hinv
    next hconf =>
      split
      next s hfind => exact hinv
      next hfind =>
        have hnew : (sidOpt.getD freshId) ∉ st.registry.map (fun s => s.session_id) := by
          cases sidOpt with
          | none =>
            intro hmem
            obtain ⟨s, hs, hseq⟩ := List.mem_map.mp hmem
            have := List.all_eq_true.mp hfresh s hs
            simp [Option.getD] at this
            exact this hseq
          | some sid =>
            intro hmem
            obtain ⟨s, hs, hseq⟩ := List.mem_map.mp hmem
            apply hconf
            simp [Option.getD] at hseq
            exact List.any_eq_true.mpr ⟨s, hs, by simp [hseq]⟩
        rcases deactivate_cases eng st hinv with ⟨e, hde⟩ | ⟨st', hde, hids, hcur, hfree⟩
        · rw [hde]; exact hinv
        · rw [hde]
          cases hl : eng.loadResult path with
          | error m =>
            exact mgrInv_of_free st' (by rw [hids]; exact hinv.1) hcur hfree
          | ok hdl =>
            refine ⟨?_, ?_, ?_, ?_⟩
            · rw [List.map_append, hids]
              simp only [List.map_cons, List.map_nil]
              rw [List.nodup_append]
              refine ⟨hinv.1, List.nodup_singleton _, ?_⟩
              intro a ha hb
              simp at hb
              rw [hb] at ha
              exact hnew ha
            · rw [List.countP_append]
              have h0 : st'.registry.countP (fun s => s.engine_handle.isSome) = 0 :=
                List.countP_eq_zero.mpr (fun a ha => by simp [hfree a ha])
              simp [h0]
            · intro s hs hsome
              rcases List.mem_append.mp hs with hs' | hs'
              · rw [hfree s hs'] at hsome; simp at hsome
              · simp at hs'
                rw [hs']
            · refine (currentNamesHolder_some_iff rfl).mpr ?_
              exact ⟨⟨sidOpt.getD freshId, path, some hdl⟩,
                     List.mem_append.mpr (Or.inr (by simp)), rfl, rfl⟩

lemma close_session_pres (eng : EngineBehavior) (st : ManagerState) (sid : String)
    (hinv : MgrInv st) :
    MgrInv (close_session eng st sid).2 := by
  unfold close_session
  split
  · exact hinv
  next hknown =>
    split
    next hcurr =>
      rcases deactivate_cases eng st hinv with ⟨e, hde⟩ | ⟨st', hde, hids, hcur, hfree⟩
      · rw [hde]; exact hinv
      · rw [hde]
        apply mgrInv_of_free
        · exact nodup_filter_sid sid st'.registry (by rw [hids]; exact hinv.1)
        · exact hcur
        · intro s hs
          exact hfree s (List.mem_of_mem_filter hs)
    next hncurr =>
      refine ⟨nodup_filter_sid sid st.registry hinv.1, ?_, ?_, ?_⟩
      · calc (st.registry.filter (fun s => s.session_id != sid)).countP
              (fun s => s.engine_handle.isSome)
            ≤ st.registry.countP (fun s => s.engine_handle.isSome) :=
              (List.filter_sublist st.registry).countP_le _
          _ ≤ 1 := hinv.2.1
      · intro s hs hsome
        exact hinv.2.2.1 s (List.mem_of_mem_filter hs) hsome
      · cases hc : st.current with
        | none => exact currentNamesHolder_of_none rfl
        | some cid =>
          have hcidne : cid ≠ sid := by
            intro heq
            apply hncurr
            rw [hc, heq]
            simp
          obtain ⟨s0, hmem, hid, hsome⟩ :=
            (currentNamesHolder_some_iff hc).mp hinv.2.2.2
          refine (currentNamesHolder_some_iff rfl).mpr ?_
          exact ⟨s0, List.mem_filter.mpr ⟨hmem, by simp [hid, hcidne]⟩, hid, hsome⟩

lemma switch_session_pres (eng : EngineBehavior) (st : ManagerState) (sid : String)
    (hinv : MgrInv st) :
    MgrInv (switch_session eng st sid).2 := by
  unfold switch_session
  split
  · exact hinv
  next target hfind =>
    split
    · exact hinv
    next hncurr =>
      rcases deactivate_cases eng st hinv with ⟨e, hde⟩ | ⟨st', hde, hids, hcur, hfree⟩
      · rw [hde]; exact hinv
      · rw [hde]
        cases hl : eng.loadResult target.input_path with
        | error m =>
          exact mgrInv_of_free st' (by rw [hids]; exact hinv.1) hcur hfree
        | ok hdl =>
          have htid : target.session_id = sid := by simpa using List.find?_some hfind
          have htmem : target ∈ st.registry := List.mem_of_find?_eq_some hfind
          have hsidmem : sid ∈ st'.registry.map (fun s => s.session_id) := by
            rw [hids]; exact List.mem_map.mpr ⟨target, htmem, htid⟩
          obtain ⟨t, htmem', htid'⟩ := List.mem_map.mp hsidmem
          refine ⟨?_, ?_, ?_, ?_⟩
          · rw [map_sid_setHandleIf, hids]; exact hinv.1
          · rw [countP_isSome_setHandle sid hdl st'.registry hfree]
            exact countP_id_le_one sid st'.registry (by rw [hids]; exact hinv.1)
          · intro s hs hsome
            obtain ⟨t0, ht0, ht0eq⟩ := List.mem_map.mp hs
            by_cases hid : t0.session_id = sid
            · rw [← ht0eq]; simp [setHandleIf, hid]
            · rw [← ht0eq] at hsome
              rw [show setHandleIf sid hdl t0 = t0 by simp [setHandleIf, hid]] at hsome
              rw [hfree t0 ht0] at hsome
              simp at hsome
          · refine (currentNamesHolder_some_iff rfl).mpr ?_
            refine ⟨setHandleIf sid hdl t, List.mem_map.mpr ⟨t, htmem', rfl⟩, ?_, ?_⟩
            · simp [setHandleIf, htid']
            · simp [setHandleIf, htid']

lemma closeAllStep_pres (acc : ManagerState) (s : MSession) (hinv : MgrInv acc) :
    MgrInv (closeAllStep acc s) := by
  refine ⟨nodup_filter_sid s.session_id acc.registry hinv.1, ?_, ?_, ?_⟩
  · calc (acc.registry.filter (fun t => t.session_id != s.session_id)).countP
          (fun t => t.engine_handle.isSome)
        ≤ acc.registry.countP (fun t => t.engine_handle.isSome) :=
          (List.filter_sublist acc.registry).countP_le _
      _ ≤ 1 := hinv.2.1
  · intro t ht hsome
    have htmem := List.mem_of_mem_filter ht
    have htpred : (t.session_id != s.session_id) = true := (List.mem_filter.mp ht).2
    have hcur := hinv.2.2.1 t htmem hsome
    show (if acc.current == some s.session_id then none else acc.current)
        = some t.session_id
    rw [hcur]
    simp
    intro heq
    rw [heq] at htpred
    simp at htpred
  · show currentNamesHolder
      { registry := acc.registry.filter (fun t => t.session_id != s.session_id),
        current := if acc.current == some s.session_id then none else acc.current } = true
    cases hc : acc.current with
    | none =>
      apply currentNamesHolder_of_none
      simp [hc]
    | some cid =>
      by_cases hcs : cid = s.session_id
      · apply currentNamesHolder_of_none
        simp [hc, hcs]
      · have hcur' : (if ((some cid : Option String) == some s.session_id) = true
              then none else (some cid : Option String)) = some cid := by simp [hcs]
        obtain ⟨s0, hmem, hid, hsome⟩ :=
          (currentNamesHolder_some_iff hc).mp hinv.2.2.2
        refine (currentNamesHolder_some_iff hcur').mpr ?_
        refine ⟨s0, List.mem_filter.mpr ⟨hmem, by simp [hid, hcs]⟩, hid, hsome⟩

lemma foldl_closeAllStep_pres (l : List MSession) (acc : ManagerState)
    (hinv : MgrInv acc) :
    MgrInv (l.foldl closeAllStep acc) := by
  induction l generalizing acc with
  | nil => exact hinv
  | cons a l ih => exact ih (closeAllStep acc a) (closeAllStep_pres acc a hinv)

lemma close_all_sessions_pres (eng : EngineBehavior) (st : ManagerState)
    (hinv : MgrInv st) :
    MgrInv (close_all_sessions eng st) :=
  foldl_closeAllStep_pres st.registry st hinv

/-- An engine whose load and unload always succeed, for concrete witnesses. -/
def engOK : EngineBehavior := ⟨fun _ => Except.ok 1, fun _ => Except.ok ()⟩

/-- An engine whose unload always fails with an EngineError, for concrete
witnesses of failure containment. -/
def engUnloadFail : EngineBehavior := ⟨fun _ => Except.ok 1, fun _ => Except.error "unload failed"⟩

/-- A concrete two-session manager state: s1 is current and holds the live
handle, s2 is dormant. -/
def stTwo : ManagerState :=
  { registry := [⟨"s1", "a.exe", some 7⟩, ⟨"s2", "b.exe", none⟩], current := some "s1" }

/-- A session-manager behaviour whose switch_session returns False without
raising (the bool the interface declares), for probing the switch tool. -/
def switchFalseBehavior : SwitchBehavior :=
  { switchResult := fun _ => Except.ok false, currentResult := Except.ok none }

/-- The switch tool's success shape of spec section 6's table - a dictionary
with a boolean success flag, a descriptor dictionary under session, and a
string message (written from the spec's words, for comparison with the
code's results). -/
def isSwitchSuccessShape (v : JVal) : Bool :=
  match v.lookup "success", v.lookup "session", v.lookup "message" with
  | some (JVal.bool true), some (JVal.dict _), some (JVal.str _) => true
  | _, _, _ => false

/-- The failure shape of spec section 6's table - a dictionary holding
exactly an error string (written from the spec's words, for comparison with
the code's results). -/
def isErrorShape (v : JVal) : Bool :=
  match v with
  | JVal.dict [("error", JVal.str _)] => true
  | _ => false

/-- C1: at every instant at most one registered session holds a live engine
handle, and the current pointer, when non-null, names exactly the session
holding it, while a null pointer means no handle is loaded anywhere; this
invariant (together with the spec's uniqueness of session identities, and
given that a generated fresh id is collision-checked as the spec requires)
is preserved by open_binary, close_session, switch_session and
close_all_sessions, whatever the engine does. -/
theorem manager_operations_preserve_single_slot
    (eng : EngineBehavior) (st : ManagerState) (pathExists : Bool)
    (freshId path sid : String) (sidOpt : Option String)
    (hinv : MgrInv st)
    (hfresh : st.registry.all (fun s => s.session_id != freshId) = true) :
    MgrInv (open_binary eng pathExists freshId st path sidOpt).2 ∧
    MgrInv (close_session eng st sid).2 ∧
    MgrInv (switch_session eng st sid).2 ∧
    MgrInv (close_all_sessions eng st) :=
  ⟨open_binary_pres eng pathExists freshId path sidOpt st hinv hfresh,
   close_session_pres eng st sid hinv,
   switch_session_pres eng st sid hinv,
   close_all_sessions_pres eng st hinv⟩

/-- Witness for C1 at a concrete two-session state. -/
theorem manager_operations_preserve_single_slot_witness :
    MgrInv stTwo ∧
    stTwo.registry.all (fun s => s.session_id != "s9") = true ∧
    (MgrInv (open_binary engOK true "s9" stTwo "c.exe" none).2 ∧
     MgrInv (close_session engOK stTwo "s2").2 ∧
     MgrInv (switch_session engOK stTwo "s2").2 ∧
     MgrInv (close_all_sessions engOK stTwo)) :=
  ⟨by decide, by decide,
   manager_operations_preserve_single_slot engOK stTwo true "s9" "c.exe" "s2" none
     (by decide) (by decide)⟩

/-- C2 (evaluation at the failing input): when the manager's switch_session
returns False without raising, idalib_switch executes no return statement
and evaluates to Python None - not a dictionary - so not every tool-facing
call returns a dictionary result. -/
theorem idalib_switch_returns_none_not_dict :
    idalib_switch true "s1" switchFalseBehavior = JVal.null ∧
    (idalib_switch true "s1" switchFalseBehavior).isDict = false :=
  ⟨rfl, rfl⟩

/-- C3 (evaluation at the failing input): when the manager's switch_session
returns False without raising, the switch tool's result is Python None,
which is neither the success shape nor the failure shape of the spec's
table. -/
theorem idalib_switch_result_outside_both_shapes :
    idalib_switch true "s2" switchFalseBehavior = JVal.null ∧
    isSwitchSuccessShape (idalib_switch true "s2" switchFalseBehavior) = false ∧
    isErrorShape (idalib_switch true "s2" switchFalseBehavior) = false :=
  ⟨rfl, rfl, rfl⟩

/-- C4: open_binary is idempotent on input_path - whenever a registered
session already has the exact path, open_binary returns that session's id
and leaves the state (hence the registry size) unchanged, for every engine
behaviour (no engine work is observed). -/
theorem open_binary_dedup_idempotent (eng : EngineBehavior) (freshId : String)
    (st : ManagerState) (path : String) (s : MSession)
    (hfind : st.registry.find? (fun t => t.input_path == path) = some s) :
    open_binary eng true freshId st path none = (Except.ok s.session_id, st) := by
  unfold open_binary
  simp [hfind]

/-- Witness for C4: re-opening a.exe on the two-session state returns s1 and
changes nothing. -/
theorem open_binary_dedup_idempotent_witness :
    stTwo.registry.find? (fun t => t.input_path == "a.exe")
      = some ⟨"s1", "a.exe", some 7⟩ ∧
    open_binary engOK true "s9" stTwo "a.exe" none = (Except.ok "s1", stTwo) :=
  ⟨by decide,
   open_binary_dedup_idempotent engOK "s9" stTwo "a.exe" ⟨"s1", "a.exe", some 7⟩ (by decide)⟩

/-- C5: for a session id not present in the registry, close_session returns
false and leaves the registry and the current pointer unchanged, and the
close tool turns that false into the structured result with success false
and an error message, raising nothing. -/
theorem close_unknown_session (eng : EngineBehavior) (st : ManagerState) (sid : String)
    (hunknown : st.registry.any (fun s => s.session_id == sid) = false) :
    close_session eng st sid = (Except.ok false, st) ∧
    idalib_close true sid { closeResult := fun _ => Except.ok false }
      = JVal.dict [("success", JVal.bool false),
                   ("error", JVal.str ("Session not found: " ++ sid))] := by
  constructor
  · unfold close_session
    simp [hunknown]
  · rfl

/-- Witness for C5: closing the unknown id zz on the two-session state. -/
theorem close_unknown_session_witness :
    stTwo.registry.any (fun s => s.session_id == "zz") = false ∧
    (close_session engOK stTwo "zz" = (Except.ok false, stTwo) ∧
     idalib_close true "zz" { closeResult := fun _ => Except.ok false }
       = JVal.dict [("success", JVal.bool false),
                    ("error", JVal.str ("Session not found: " ++ "zz"))]) :=
  ⟨by decide, close_unknown_session engOK stTwo "zz" (by decide)⟩

/-- C6: when the engine's unload fails with an EngineError while
close_session is closing the current session, the whole registry mutation
is aborted - close_session surfaces the EngineError and the state is
returned unchanged, so the session remains registered, remains current, and
the current pointer is untouched. -/
theorem close_current_engine_error (eng : EngineBehavior) (st : ManagerState)
    (cid m : String) (s : MSession) (hdl : Nat)
    (hcur : st.current = some cid)
    (hfind : st.registry.find? (fun t => t.session_id == cid) = some s)
    (hh : s.engine_handle = some hdl)
    (hu : eng.unloadResult hdl = Except.error m) :
    close_session eng st cid = (Except.error (MgrError.engine m), st) := by
  have hps := List.find?_some hfind
  have hmem := List.mem_of_find?_eq_some hfind
  have hany : st.registry.any (fun t => t.session_id == cid) = true :=
    List.any_eq_true.mpr ⟨s, hmem, hps⟩
  unfold close_session
  simp [hany, hcur, deactivate, hfind, hh, hu]

/-- Witness for C6: a failing unload while closing the current session s1
leaves the two-session state untouched. -/
theorem close_current_engine_error_witness :
    stTwo.current = some "s1" ∧
    stTwo.registry.find? (fun t => t.session_id == "s1") = some ⟨"s1", "a.exe", some 7⟩ ∧
    (⟨"s1", "a.exe", some 7⟩ : MSession).engine_handle = some 7 ∧
    engUnloadFail.unloadResult 7 = Except.error "unload failed" ∧
    close_session engUnloadFail stTwo "s1"
      = (Except.error (MgrError.engine "unload failed"), stTwo) :=
  ⟨rfl, by decide, rfl, rfl,
   close_current_engine_error engUnloadFail stTwo "s1" "unload failed"
     ⟨"s1", "a.exe", some 7⟩ 7 rfl (by decide) rfl rfl⟩

/-- C7: outside idalib mode every one of the five tool calls returns the
structured mode error dictionary - the same one for every input and every
manager behaviour, so no session-manager operation is performed and nothing
is thrown - and that dictionary carries the error message under the error
key. -/
theorem tools_mode_gated :
    (∀ p ra sidOpt b, idalib_open false p ra sidOpt b = modeErrorDict) ∧
    (∀ sid b, idalib_close false sid b = modeErrorDict) ∧
    (∀ sid b, idalib_switch false sid b = modeErrorDict) ∧
    (∀ b, idalib_list false b = modeErrorDict) ∧
    (∀ b, idalib_current false b = modeErrorDict) ∧
    modeErrorDict.lookup "error" = some (JVal.str MODE_ERROR_MSG) :=
  ⟨fun _ _ _ _ => rfl, fun _ _ => rfl, fun _ _ => rfl, fun _ => rfl, fun _ => rfl, rfl⟩

/-- The trace of cleanup_and_exit decomposed as its prefix followed by the
final exit step. -/
lemma cleanupTrace_concat (st : ManagerState) :
    cleanupTrace st =
      ([ShutdownEvent.logged "Shutting down...",
        ShutdownEvent.logged "Closing all IDA sessions..."]
       ++ st.registry.map (fun s => ShutdownEvent.sessionClosed s.session_id)
       ++ [ShutdownEvent.logged "All sessions closed."]) ++ [ShutdownEvent.exited 0] := by
  simp [cleanupTrace]

/-- C9: cleanup_and_exit is the handler registered for both SIGINT and
SIGTERM; it invokes close_all_sessions, and the process-exit step is the
last event of its trace - every earlier event is not an exit, and the
close completion of every registered session strictly precedes the exit. -/
theorem shutdown_closes_all_before_exit (eng : EngineBehavior) (st : ManagerState)
    (signum : Nat) (hsig : signum = SIGINT ∨ signum = SIGTERM) :
    signalHandler signum = some cleanup_and_exit ∧
    cleanup_and_exit eng st signum = (cleanupTrace st, close_all_sessions eng st) ∧
    (cleanupTrace st).getLast? = some (ShutdownEvent.exited 0) ∧
    (∀ e ∈ (cleanupTrace st).dropLast, e.isExit = false) ∧
    ∀ s ∈ st.registry,
      ShutdownEvent.sessionClosed s.session_id ∈ (cleanupTrace st).dropLast := by
  refine ⟨?_, rfl, ?_, ?_, ?_⟩
  · rcases hsig with h | h <;> rw [h] <;> rfl
  · rw [cleanupTrace_concat]
    exact List.getLast?_concat _
  · intro e he
    rw [cleanupTrace_concat, List.dropLast_concat] at he
    rcases List.mem_append.mp he with he' | he'
    · rcases List.mem_append.mp he' with h2 | h2
      · simp at h2
        rcases h2 with h2 | h2 <;> simp [h2, ShutdownEvent.isExit]
      · obtain ⟨s, hs, hseq⟩ := List.mem_map.mp h2
        simp [← hseq, ShutdownEvent.isExit]
    · simp at he'
      simp [he', ShutdownEvent.isExit]
  · intro s hs
    rw [cleanupTrace_concat, List.dropLast_concat]
    exact List.mem_append.mpr (Or.inl (List.mem_append.mpr
      (Or.inr (List.mem_map.mpr ⟨s, hs, rfl⟩))))

/-- Witness for C9 at SIGINT and the concrete two-session state. -/
theorem shutdown_closes_all_before_exit_witness :
    (SIGINT = SIGINT ∨ SIGINT = SIGTERM) ∧
    (signalHandler SIGINT = some cleanup_and_exit ∧
     cleanup_and_exit engOK stTwo SIGINT = (cleanupTrace stTwo, close_all_sessions engOK stTwo) ∧
     (cleanupTrace stTwo).getLast? = some (ShutdownEvent.exited 0) ∧
     (∀ e ∈ (cleanupTrace stTwo).dropLast, e.isExit = false) ∧
     ∀ s ∈ stTwo.registry,
       ShutdownEvent.sessionClosed s.session_id ∈ (cleanupTrace stTwo).dropLast) :=
  ⟨Or.inl rfl, shutdown_closes_all_before_exit engOK stTwo SIGINT (Or.inl rfl)⟩

/-- C10: whenever the list tool succeeds, its result is the dictionary whose
count field is the length of its sessions list, and whose
current_session_id key is always present - bound to the current session's
id when one is active and to the null value when none is. -/
theorem idalib_list_count_and_current (ss : List JVal) (cur : Option Session) :
    idalib_list true { listResult := Except.ok ss, currentResult := Except.ok cur }
      = JVal.dict [("sessions", JVal.list ss),
                   ("count", JVal.nat ss.length),
                   ("current_session_id",
                     match cur with
                     | some s => JVal.str s.session_id
                     | none => JVal.null)] ∧
    (idalib_list true { listResult := Except.ok ss, currentResult := Except.ok cur }).lookup
        "count" = some (JVal.nat ss.length) ∧
    (idalib_list true { listResult := Except.ok ss, currentResult := Except.ok cur }).lookup
        "sessions" = some (JVal.list ss) ∧
    (idalib_list true { listResult := Except.ok ss, currentResult := Except.ok cur }).lookup
        "current_session_id"
      = some (match cur with
              | some s => JVal.str s.session_id
              | none => JVal.null) :=
  ⟨rfl, rfl, rfl, rfl⟩
